import Mathlib

/-!
Verification of the acquisition engine of the trae_tev_aa_uhf_v2 repository.

The development shallowly embeds the register-decoding and polling code of
`uhf_monitor_pyside.py`, `all_sensors_reader_pyside.py` and
`all_sensors_reader_pyside_threaded.py`.  Machine registers are naturals
below 2^16, the Modbus transport is an oracle mapping a request
(address, count) to an outcome, and IEEE-754 single-precision values are
interpreted exactly as rationals (with `none` for NaN/infinity patterns).
-/

/-- Outcome of one `client.read_input_registers(address, count)` call:
a normal response carrying a register list, an error response
(`response.isError()` is true), or a raised exception. -/
inductive ReadOutcome where
  | ok (regs : List Nat)
  | err
  | exn
deriving DecidableEq, Repr

/-- The device/transport oracle: for each request `(address, count)` it
determines the outcome of the corresponding Modbus transaction. -/
def Dev : Type := Nat → Nat → ReadOutcome

/-- Exact value of the IEEE-754 single-precision number whose 32-bit
pattern is `bits`, as a rational; `none` for NaN and infinity patterns
(exponent field 255).  This is what Python's `struct.unpack` of format
`!f` computes from the 4-byte big-endian encoding of `bits`. -/
def float32Val (bits : Nat) : Option ℚ :=
  let s : Nat := bits / 2 ^ 31 % 2
  let e : Nat := bits / 2 ^ 23 % 2 ^ 8
  let m : Nat := bits % 2 ^ 23
  if e = 255 then none
  else
    let num : Int := if e = 0 then (m : Int) else ((2 ^ 23 + m) * 2 ^ (e - 1) : Nat)
    some (mkRat (if s = 1 then -num else num) (2 ^ 149))

namespace UHFMonitor

/-- `combined = (registers[1] << 16) | registers[0]` from
`UHFMonitor.read_float`: word-swapped combination of the register pair,
low-order register first. -/
def float_combined (r0 r1 : Nat) : Nat := (r1 <<< 16) ||| r0

/-- `UHFMonitor.read_float(address)`.  Returns the 32-bit pattern of the
decoded float (its numeric value is `float32Val` of the pattern) paired
with the list of Modbus transactions issued.  `None` when not connected,
on an error response, or on an exception; `struct.pack('!I', combined)`
raises (hence `None`) when `combined` does not fit in 32 bits, and
`registers[1]` raises `IndexError` when fewer than 2 registers arrive. -/
def read_float (connected : Bool) (dev : Dev) (address : Nat) :
    Option Nat × List (Nat × Nat) :=
  if !connected then (none, [])
  else
    ((match dev address 2 with
      | ReadOutcome.ok regs =>
        match regs with
        | r0 :: r1 :: _ =>
          if float_combined r0 r1 < 2 ^ 32 then some (float_combined r0 r1)
          else none
        | _ => none
      | ReadOutcome.err => none
      | ReadOutcome.exn => none), [(address, 2)])

/-- `UHFMonitor.read_short(address)`: returns `response.registers[0]`,
or `None` when not connected, on an error response, on an exception, or
when the response carries no register (`IndexError`). -/
def read_short (connected : Bool) (dev : Dev) (address : Nat) :
    Option Nat × List (Nat × Nat) :=
  if !connected then (none, [])
  else
    ((match dev address 1 with
      | ReadOutcome.ok regs => regs.head?
      | ReadOutcome.err => none
      | ReadOutcome.exn => none), [(address, 1)])

end UHFMonitor

namespace AllSensorsReader

/-- Payload bit pattern produced by
`BinaryPayloadDecoder.fromRegisters([r0, r1], byteorder=Endian.BIG,
wordorder=Endian.LITTLE)` followed by `decode_32bit_float()`: the two
16-bit words are taken in reversed (little) word order, each packed as
two big-endian bytes, and the four bytes are read back big-endian. -/
def float_payload_bits (r0 r1 : Nat) : Nat :=
  [r1 / 256 % 256, r1 % 256, r0 / 256 % 256, r0 % 256].foldl
    (fun acc b => acc * 256 + b) 0

/-- `AllSensorsReader.read_float(address)`.  Returns the 32-bit pattern
of the decoded float (numeric value: `float32Val` of the pattern) paired
with the issued transactions.  `None` when not connected, on an error
response, or on an exception; `fromRegisters` packs every register with
`pack('>H', r)` and raises (hence `None`) if any register exceeds 16
bits, and `decode_32bit_float` raises when fewer than 4 payload bytes
(2 registers) are available. -/
def read_float (connected : Bool) (dev : Dev) (address : Nat) :
    Option Nat × List (Nat × Nat) :=
  if !connected then (none, [])
  else
    ((match dev address 2 with
      | ReadOutcome.ok regs =>
        if regs.all (fun r => r < 2 ^ 16) then
          match regs with
          | r0 :: r1 :: _ => some (float_payload_bits r0 r1)
          | _ => none
        else none
      | ReadOutcome.err => none
      | ReadOutcome.exn => none), [(address, 2)])

/-- `AllSensorsReader.read_short(address)`: returns
`response.registers[0]`, or `None` when not connected, on an error
response, on an exception, or when the response carries no register. -/
def read_short (connected : Bool) (dev : Dev) (address : Nat) :
    Option Nat × List (Nat × Nat) :=
  if !connected then (none, [])
  else
    ((match dev address 1 with
      | ReadOutcome.ok regs => regs.head?
      | ReadOutcome.err => none
      | ReadOutcome.exn => none), [(address, 1)])

end AllSensorsReader

/-- Result of the chunked read loop over one waveform channel:
`success buf` when the `while` loop ran to completion, `errorResp` when a
chunk got an error response (loop `break`), `exception` when a chunk read
raised. -/
inductive ChanResult where
  | success (buf : List Nat)
  | errorResp
  | exception
deriving DecidableEq, Repr

/-- One step-per-fuel embedding of the chunked read loop shared by
`AllSensorsReader.read_waveform_data` and `UHFMonitor.read_uhf_waveform`:
`while remaining > 0: count = min(remaining, maxc); read count registers
at addr; on error break; append; addr += count; remaining -= count`.
Returns the loop result together with the list of issued transactions
`(address, count)`.  Each successful chunk reads at least one register
when `maxc >= 1`, so fuel equal to the initial `remaining` suffices to
run the source loop to completion. -/
def readChannelAux (dev : Dev) (maxc : Nat) :
    Nat → Nat → Nat → List Nat → ChanResult × List (Nat × Nat)
  | 0, _, _, acc => (ChanResult.success acc, [])
  | fuel + 1, addr, remaining, acc =>
    if remaining = 0 then (ChanResult.success acc, [])
    else
      let c := min remaining maxc
      match dev addr c with
      | ReadOutcome.ok regs =>
        let rest := readChannelAux dev maxc fuel (addr + c) (remaining - c) (acc ++ regs)
        (rest.1, (addr, c) :: rest.2)
      | ReadOutcome.err => (ChanResult.errorResp, [(addr, c)])
      | ReadOutcome.exn => (ChanResult.exception, [(addr, c)])

/-- Chunked read of one channel of `width` registers starting at `base`,
with at most `maxc` registers per transaction. -/
def readChannel (dev : Dev) (base width maxc : Nat) : ChanResult × List (Nat × Nat) :=
  readChannelAux dev maxc width base width []

/-- The three waveform channels of `AllSensorsReader.read_waveform_data`,
in declaration order: name, start address (each 128 registers wide). -/
def waveform_info : List (String × Nat) :=
  [("TEV图谱", 2000), ("超声波图谱", 2128), ("UHF图谱", 2256)]

/-- The channel loop of `AllSensorsReader.read_waveform_data`: channels
are processed in declared order; a channel whose chunk read got an error
response contributes an empty buffer and the loop continues, while an
exception contributes an empty buffer and `break`s out of the `for`
loop, leaving the remaining channels absent from the dict. -/
def readWaveformChannels (dev : Dev) (maxc : Nat) :
    List (String × Nat) → List (String × List Nat)
  | [] => []
  | (name, base) :: rest =>
    match (readChannel dev base 128 maxc).1 with
    | ChanResult.success buf => (name, buf) :: readWaveformChannels dev maxc rest
    | ChanResult.errorResp => (name, []) :: readWaveformChannels dev maxc rest
    | ChanResult.exception => [(name, [])]

namespace AllSensorsReader

/-- `AllSensorsReader.read_waveform_data(max_read_count)`: `None` when
not connected, otherwise the dict (as an ordered association list) built
by the channel loop over `waveform_info`. -/
def read_waveform_data (connected : Bool) (dev : Dev) (max_read_count : Nat) :
    Option (List (String × List Nat)) :=
  if !connected then none
  else some (readWaveformChannels dev max_read_count waveform_info)

end AllSensorsReader

/-- What `_handle_waveforms_data` displays for a channel:
`waveform_data_dict.get(name, [])`. -/
def deliveredChannel (snap : List (String × List Nat)) (name : String) : List Nat :=
  (snap.lookup name).getD []

/-- The plot data of a channel that has never been read: the canvases
start out from `init_plot`, which draws no samples. -/
def initialChannelDisplay : List Nat := []

/-- A 16-bit value decoded by the telemetry readers: `read_short` yields
the register itself, `read_float` a 32-bit IEEE-754 pattern (numeric
value `float32Val` of it). -/
inductive TelemValue where
  | short (n : Nat)
  | flt (bits : Nat)
deriving DecidableEq, Repr

namespace AllSensorsReader

/-- `AllSensorsReader.read_telemetry_data()`: `None` when not connected;
otherwise one `read_short`/`read_float` per spec, in source order
(counter, the three mV shorts, then the three dB floats), each failed
read contributing `None` for its key.  The second component is the
concatenated transaction trace of the seven reads. -/
def read_telemetry_data (connected : Bool) (dev : Dev) :
    Option (List (String × Option TelemValue)) × List (Nat × Nat) :=
  if !connected then (none, [])
  else
    let tev_count := read_short connected dev 100
    let tev_mv := read_short connected dev 109
    let ultrasonic_mv := read_short connected dev 110
    let uhf_mv := read_short connected dev 111
    let tev_db := read_float connected dev 102
    let ultrasonic_db := read_float connected dev 104
    let uhf_db := read_float connected dev 106
    (some [("TEV放电次数", tev_count.1.map TelemValue.short),
           ("TEV_mV值", tev_mv.1.map TelemValue.short),
           ("超声波_mV值", ultrasonic_mv.1.map TelemValue.short),
           ("UHF_mV值", uhf_mv.1.map TelemValue.short),
           ("TEV_dB值", tev_db.1.map TelemValue.flt),
           ("超声波_dB值", ultrasonic_db.1.map TelemValue.flt),
           ("UHF_dB值", uhf_db.1.map TelemValue.flt)],
     tev_count.2 ++ tev_mv.2 ++ ultrasonic_mv.2 ++ uhf_mv.2 ++
       tev_db.2 ++ ultrasonic_db.2 ++ uhf_db.2)

/-- `AllSensorsReader.connect()`: `self.connected = self.client.connect()`
inside `try`, with the `except` branch setting `connected = False`; the
current `connected` state is never consulted.  `clientResult` is the
outcome of the `client.connect()` call (`none` models an exception).
Returns (return value, new `connected` state, number of
`client.connect()` invocations performed by this call). -/
def connect (connected : Bool) (clientResult : Option Bool) : Bool × Bool × Nat :=
  match clientResult with
  | some b => (b, b, 1)
  | none => (false, false, 1)

end AllSensorsReader

namespace UHFMonitor

/-- `UHFMonitor.read_uhf_telemetry()`: `None` when not connected,
otherwise the dict with the dB float (address 106) and the mV short
(address 111); the inner reads catch their own exceptions, so a
connected call always returns a dict. -/
def read_uhf_telemetry (connected : Bool) (dev : Dev) :
    Option (List (String × Option TelemValue)) :=
  if !connected then none
  else
    some [("UHF_dB值", (read_float connected dev 106).1.map TelemValue.flt),
          ("UHF_mV值", (read_short connected dev 111).1.map TelemValue.short)]

/-- `UHFMonitor.read_uhf_waveform()`: empty list when not connected;
otherwise the chunked loop over 128 registers from address 2256 with at
most 125 per transaction, returning the empty list on an error response
or an exception and the accumulated buffer on success. -/
def read_uhf_waveform (connected : Bool) (dev : Dev) : List Nat :=
  if !connected then []
  else
    match (readChannel dev 2256 128 125).1 with
    | ChanResult.success buf => buf
    | ChanResult.errorResp => []
    | ChanResult.exception => []

end UHFMonitor

namespace AllSensorsApp

/-- Per-class worker slot of `AllSensorsApp` (threaded variant):
`none` models `self.<class>_worker is None`, `some r` a worker object
whose `isRunning()` returns `r`. -/
def WorkerSlot : Type := Option Bool

/-- The per-class gate of `trigger_data_update`: when the slot is empty
or its worker is not running, a fresh worker is created and started
(slot becomes a running worker, started = true); otherwise the trigger
is dropped (slot unchanged, started = false). -/
def triggerSlot (slot : WorkerSlot) : WorkerSlot × Bool :=
  match slot with
  | some true => (some true, false)
  | _ => (some true, true)

/-- GUI-side state relevant to `trigger_data_update`: the two worker
slots. -/
structure AppState where
  telemetry_worker : WorkerSlot
  waveforms_worker : WorkerSlot

/-- `AllSensorsApp.trigger_data_update()`: returns without touching the
workers when no connected reader exists; otherwise applies the gate to
each class independently.  Result: (new state, telemetry worker started,
waveforms worker started). -/
def trigger_data_update (connected : Bool) (st : AppState) : AppState × Bool × Bool :=
  if !connected then (st, false, false)
  else
    let t := triggerSlot st.telemetry_worker
    let w := triggerSlot st.waveforms_worker
    ({ telemetry_worker := t.1, waveforms_worker := w.1 }, t.2, w.2)

end AllSensorsApp

/-- The buffer that `read_waveform_data` stores for a channel given its
loop result: the accumulated samples on success, an empty list after an
error response or an exception. -/
def chanBuf : ChanResult → List Nat
  | ChanResult.success buf => buf
  | ChanResult.errorResp => []
  | ChanResult.exception => []

/-- The two word-combination paths agree on 16-bit registers: packing
`[r1, r0]` big-endian byte-wise equals `(r1 << 16) | r0`. -/
theorem float_payload_bits_eq_combined (r0 r1 : Nat)
    (h0 : r0 < 2 ^ 16) (h1 : r1 < 2 ^ 16) :
    AllSensorsReader.float_payload_bits r0 r1 = UHFMonitor.float_combined r0 r1 := by
  unfold AllSensorsReader.float_payload_bits UHFMonitor.float_combined
  rw [Nat.shiftLeft_eq, Nat.mul_comm r1 (2 ^ 16), ← Nat.mul_add_lt_is_or h0]
  simp only [List.foldl]
  omega

/-- The combined word of two 16-bit registers fits in 32 bits. -/
theorem float_combined_lt (r0 r1 : Nat) (h0 : r0 < 2 ^ 16) (h1 : r1 < 2 ^ 16) :
    UHFMonitor.float_combined r0 r1 < 2 ^ 32 := by
  unfold UHFMonitor.float_combined
  rw [Nat.shiftLeft_eq, Nat.mul_comm r1 (2 ^ 16), ← Nat.mul_add_lt_is_or h0]
  omega

/-- Unfolding of the chunked loop for a width-128 channel with at most
125 registers per transaction: at most two chunks are attempted, of
sizes 125 (at `base`) and 3 (at `base + 125`). -/
theorem readChannel_unfold_128_125 (dev : Dev) (base : Nat) :
    readChannel dev base 128 125 =
      match dev base 125 with
      | ReadOutcome.err => (ChanResult.errorResp, [(base, 125)])
      | ReadOutcome.exn => (ChanResult.exception, [(base, 125)])
      | ReadOutcome.ok regs =>
        match dev (base + 125) 3 with
        | ReadOutcome.err => (ChanResult.errorResp, [(base, 125), (base + 125, 3)])
        | ReadOutcome.exn => (ChanResult.exception, [(base, 125), (base + 125, 3)])
        | ReadOutcome.ok regs2 =>
          (ChanResult.success (regs ++ regs2), [(base, 125), (base + 125, 3)]) := by
  cases h1 : dev base 125 <;>
    simp [readChannel, readChannelAux, h1] <;>
    cases h2 : dev (base + 125) 3 <;>
    simp [readChannelAux, h2]

/-- C1: for every 2-register pair `[r0, r1]` handed to the float32
decode, the result is the IEEE-754 single-precision value whose 32-bit
pattern is `(r1 << 16) | r0` — the low-order register comes first with
big-endian byte order within each register; in particular the pair
`[0x0000, 0x3F80]` decodes to exactly `1.0`. -/
theorem float_decode_word_order (r0 r1 address : Nat) (dev : Dev)
    (h0 : r0 < 2 ^ 16) (h1 : r1 < 2 ^ 16)
    (hdev : dev address 2 = ReadOutcome.ok [r0, r1]) :
    (AllSensorsReader.read_float true dev address).1 = some ((r1 <<< 16) ||| r0)
    ∧ (UHFMonitor.read_float true dev address).1 = some ((r1 <<< 16) ||| r0)
    ∧ float32Val ((0x3F80 <<< 16) ||| 0x0000) = some 1 := by
  refine ⟨?_, ?_, by decide⟩
  · simp [AllSensorsReader.read_float, hdev, h0, h1,
      float_payload_bits_eq_combined r0 r1 h0 h1, UHFMonitor.float_combined]
    omega
  · simp [UHFMonitor.read_float, hdev, UHFMonitor.float_combined]
    simpa [UHFMonitor.float_combined] using float_combined_lt r0 r1 h0 h1

/-- Witness for C1 at the spec's concrete register pair. -/
theorem float_decode_word_order_witness :
    (AllSensorsReader.read_float true (fun _ _ => ReadOutcome.ok [0x0000, 0x3F80]) 102).1
        = some ((0x3F80 <<< 16) ||| 0x0000)
    ∧ (UHFMonitor.read_float true (fun _ _ => ReadOutcome.ok [0x0000, 0x3F80]) 102).1
        = some ((0x3F80 <<< 16) ||| 0x0000)
    ∧ float32Val ((0x3F80 <<< 16) ||| 0x0000) = some 1 :=
  float_decode_word_order 0x0000 0x3F80 102 _ (by decide) (by decide) rfl

/-- C9: the struct-based decode of `UHFMonitor.read_float` and the
`BinaryPayloadDecoder` decode (byteorder BIG, wordorder LITTLE) of
`AllSensorsReader.read_float` are equivalent on every response whose
registers are 16-bit values, including all failure cases. -/
theorem read_float_equiv (connected : Bool) (dev : Dev) (address : Nat)
    (hdev : ∀ regs, dev address 2 = ReadOutcome.ok regs →
      regs.all (fun r => r < 2 ^ 16) = true) :
    AllSensorsReader.read_float connected dev address =
      UHFMonitor.read_float connected dev address := by
  cases connected with
  | false => rfl
  | true =>
    cases h : dev address 2 with
    | err => simp [AllSensorsReader.read_float, UHFMonitor.read_float, h]
    | exn => simp [AllSensorsReader.read_float, UHFMonitor.read_float, h]
    | ok regs =>
      have hall := hdev regs h
      match regs, hall with
      | [], _ => simp [AllSensorsReader.read_float, UHFMonitor.read_float, h]
      | [r], hall => simp_all [AllSensorsReader.read_float, UHFMonitor.read_float, h]
      | r0 :: r1 :: rest, hall =>
        simp only [List.all_cons, List.all_eq_true, Bool.and_eq_true,
          decide_eq_true_eq] at hall
        obtain ⟨hr0, hr1, hrest⟩ := hall
        have hlt := float_combined_lt r0 r1 hr0 hr1
        simp only [AllSensorsReader.read_float, UHFMonitor.read_float, h, Bool.not_true,
          Bool.false_eq_true, if_false, List.all_cons, List.all_eq_true,
          Bool.and_eq_true, decide_eq_true_eq,
          float_payload_bits_eq_combined r0 r1 hr0 hr1]
        have hrestn : ∀ x ∈ rest, x < 65536 := fun x hx => by
          have := hrest x hx; omega
        rw [if_pos ⟨by omega, by omega, hrestn⟩, if_pos hlt]

/-- Witness for C9 on a concrete well-formed response. -/
theorem read_float_equiv_witness :
    AllSensorsReader.read_float true (fun _ _ => ReadOutcome.ok [1, 2]) 100 =
      UHFMonitor.read_float true (fun _ _ => ReadOutcome.ok [1, 2]) 100 :=
  read_float_equiv true _ 100 (fun regs h => by
    injection h with hx
    subst hx
    decide)

/-- C2: reading a width-128 channel with at most 125 registers per
transaction issues exactly two transactions, of sizes 125 then 3, at
`base` and `base + 125`, and a fully successful read yields exactly the
128 device registers in address order. -/
theorem chunked_read_plan (base : Nat) (mem : Nat → Nat) (dev : Dev)
    (hdev : ∀ a c, dev a c = ReadOutcome.ok ((List.range c).map fun i => mem (a + i))) :
    (readChannel dev base 128 125).2 = [(base, 125), (base + 125, 3)]
    ∧ (readChannel dev base 128 125).1 =
        ChanResult.success ((List.range 128).map fun i => mem (base + i)) := by
  rw [readChannel_unfold_128_125, hdev, hdev]
  refine ⟨rfl, ?_⟩
  have hsplit : List.range 128 = List.range 125 ++ (List.range 3).map fun i => 125 + i := by
    decide
  simp [hsplit, List.map_map, Function.comp, Nat.add_assoc]

/-- Witness for C2 on the identity register file. -/
theorem chunked_read_plan_witness :
    (readChannel (fun a c => ReadOutcome.ok ((List.range c).map fun i => (fun n => n) (a + i)))
        2000 128 125).2 = [(2000, 125), (2000 + 125, 3)]
    ∧ (readChannel (fun a c => ReadOutcome.ok ((List.range c).map fun i => (fun n => n) (a + i)))
        2000 128 125).1 =
        ChanResult.success ((List.range 128).map fun i => (fun n => n) (2000 + i)) :=
  chunked_read_plan 2000 (fun n => n) _ (fun _ _ => rfl)

/-- The chunked loop never reports an exception when the device oracle
never raises one. -/
theorem readChannelAux_ne_exception (dev : Dev) (maxc : Nat)
    (hne : ∀ a c, dev a c ≠ ReadOutcome.exn) :
    ∀ fuel addr remaining acc,
      (readChannelAux dev maxc fuel addr remaining acc).1 ≠ ChanResult.exception := by
  intro fuel
  induction fuel with
  | zero => intro addr remaining acc; simp [readChannelAux]
  | succ n ih =>
    intro addr remaining acc
    by_cases hr : remaining = 0
    · simp [readChannelAux, hr]
    · cases h : dev addr (min remaining maxc) with
      | ok regs => simp [readChannelAux, hr, h]; exact ih _ _ _
      | err => simp [readChannelAux, hr, h]
      | exn => exact absurd h (hne _ _)

/-- When the device never raises, the channel loop of
`read_waveform_data` visits every channel of its info list in order and
stores for each the buffer of its own chunked read (empty after an error
response). -/
theorem readWaveformChannels_no_exn (dev : Dev) (maxc : Nat)
    (hne : ∀ a c, dev a c ≠ ReadOutcome.exn) :
    ∀ info : List (String × Nat),
      readWaveformChannels dev maxc info =
        info.map fun p => (p.1, chanBuf (readChannel dev p.2 128 maxc).1) := by
  intro info
  induction info with
  | nil => rfl
  | cons hd tl ih =>
    obtain ⟨name, base⟩ := hd
    cases h : (readChannel dev base 128 maxc).1 with
    | success buf => simp [readWaveformChannels, h, chanBuf, ih]
    | errorResp => simp [readWaveformChannels, h, chanBuf, ih]
    | exception => exact absurd h (readChannelAux_ne_exception dev maxc hne _ _ _ _)

/-- C3 counterexample: when the first chunk read of the first channel
raises an exception, the poll's snapshot holds only that one channel
(with an empty buffer) — the two remaining channels are absent. -/
theorem waveform_exception_drops_channels :
    AllSensorsReader.read_waveform_data true (fun _ _ => ReadOutcome.exn) 125 =
      some [("TEV图谱", [])]
    ∧ (readWaveformChannels (fun _ _ => ReadOutcome.exn) 125 waveform_info).length ≠ 3 := by
  constructor
  · rfl
  · decide

/-- C3 amended: if a chunk read of a channel fails with an error
response, that channel's entry is an empty buffer with already-read
chunks discarded, reading continues with the remaining channels, and the
snapshot has an entry for all three channels; but when a chunk read
raises an exception, the channel loop stops and the remaining channels
are absent from the snapshot. -/
theorem waveform_error_isolated_per_channel (dev : Dev)
    (hne : ∀ a c, dev a c ≠ ReadOutcome.exn) :
    AllSensorsReader.read_waveform_data true dev 125 =
      some (waveform_info.map fun p => (p.1, chanBuf (readChannel dev p.2 128 125).1))
    ∧ (readWaveformChannels dev 125 waveform_info).map Prod.fst =
        ["TEV图谱", "超声波图谱", "UHF图谱"] := by
  have h := readWaveformChannels_no_exn dev 125 hne waveform_info
  constructor
  · simp [AllSensorsReader.read_waveform_data, h]
  · rw [h]; rfl

/-- Witness for the amended C3 on an all-error device: all three
channels are present with empty buffers. -/
theorem waveform_error_isolated_per_channel_witness :
    (AllSensorsReader.read_waveform_data true (fun _ _ => ReadOutcome.err) 125 =
      some (waveform_info.map fun p =>
        (p.1, chanBuf (readChannel (fun _ _ => ReadOutcome.err) p.2 128 125).1))
    ∧ (readWaveformChannels (fun _ _ => ReadOutcome.err) 125 waveform_info).map Prod.fst =
        ["TEV图谱", "超声波图谱", "UHF图谱"])
    ∧ AllSensorsReader.read_waveform_data true (fun _ _ => ReadOutcome.err) 125 =
        some [("TEV图谱", []), ("超声波图谱", []), ("UHF图谱", [])] :=
  ⟨waveform_error_isolated_per_channel _ (fun _ _ => by simp), by decide⟩

/-- C5 counterexample: the snapshot delivered for a poll in which the
first channel's read failed shows that channel exactly as the
not-yet-read display value — the empty list — with no separate success
flag anywhere in the delivered value. -/
theorem failed_channel_equals_unread_display :
    (readChannel (fun _ _ => ReadOutcome.err) 2000 128 125).1 = ChanResult.errorResp
    ∧ deliveredChannel
        (readWaveformChannels (fun _ _ => ReadOutcome.err) 125 waveform_info) "TEV图谱"
      = initialChannelDisplay := by
  constructor
  · decide
  · decide

/-- C5 amended: a failed channel is signalled to subscribers only by its
empty buffer; the internal `read_success` flag is not part of the
returned snapshot, so the delivered value of a failed channel coincides
with the not-yet-read display value. -/
theorem failed_channel_signalled_by_empty_buffer (dev : Dev)
    (hfail : (readChannel dev 2000 128 125).1 = ChanResult.errorResp) :
    deliveredChannel (readWaveformChannels dev 125 waveform_info) "TEV图谱"
      = initialChannelDisplay := by
  simp [readWaveformChannels, waveform_info, hfail, deliveredChannel,
    initialChannelDisplay, List.lookup]

/-- Witness for the amended C5 on an all-error device. -/
theorem failed_channel_signalled_by_empty_buffer_witness :
    deliveredChannel
        (readWaveformChannels (fun _ _ => ReadOutcome.err) 125 waveform_info) "TEV图谱"
      = initialChannelDisplay :=
  failed_channel_signalled_by_empty_buffer _ (by decide)

/-- C4: the telemetry read returns `None` exactly when the connection
was already down before the first read; when connected it always returns
a snapshot with an entry for every spec in declaration order, each entry
being the result of that spec's own read (`None` when that read failed),
and all seven transactions are issued regardless of individual
failures. -/
theorem telemetry_failure_isolation (dev : Dev) :
    (AllSensorsReader.read_telemetry_data false dev).1 = none
    ∧ (∃ es, (AllSensorsReader.read_telemetry_data true dev).1 = some es
        ∧ es.map Prod.fst =
            ["TEV放电次数", "TEV_mV值", "超声波_mV值", "UHF_mV值",
             "TEV_dB值", "超声波_dB值", "UHF_dB值"]
        ∧ ("TEV放电次数", (AllSensorsReader.read_short true dev 100).1.map TelemValue.short) ∈ es
        ∧ ("TEV_mV值", (AllSensorsReader.read_short true dev 109).1.map TelemValue.short) ∈ es
        ∧ ("超声波_mV值", (AllSensorsReader.read_short true dev 110).1.map TelemValue.short) ∈ es
        ∧ ("UHF_mV值", (AllSensorsReader.read_short true dev 111).1.map TelemValue.short) ∈ es
        ∧ ("TEV_dB值", (AllSensorsReader.read_float true dev 102).1.map TelemValue.flt) ∈ es
        ∧ ("超声波_dB值", (AllSensorsReader.read_float true dev 104).1.map TelemValue.flt) ∈ es
        ∧ ("UHF_dB值", (AllSensorsReader.read_float true dev 106).1.map TelemValue.flt) ∈ es)
    ∧ (AllSensorsReader.read_telemetry_data true dev).2 =
        [(100, 1), (109, 1), (110, 1), (111, 1), (102, 2), (104, 2), (106, 2)] := by
  refine ⟨rfl, ⟨_, rfl, rfl, ?_, ?_, ?_, ?_, ?_, ?_, ?_⟩, rfl⟩ <;> simp

/-- C7 counterexample: the transaction order asserted by the claim —
counter, then the three dB floats, then the three mV shorts — is not the
order the code issues. -/
theorem telemetry_order_not_floats_first :
    (AllSensorsReader.read_telemetry_data true (fun _ _ => ReadOutcome.err)).2 ≠
      [(100, 1), (102, 2), (104, 2), (106, 2), (109, 1), (110, 1), (111, 1)] := by
  decide

/-- C7 amended: every connected telemetry poll issues its per-spec
transactions in the fixed declaration order counter, then the three mV
shorts, then the three dB floats, with each short spec consuming exactly
1 register per transaction and each float spec exactly 2. -/
theorem telemetry_transaction_order (dev : Dev) :
    (AllSensorsReader.read_telemetry_data true dev).2 =
      [(100, 1), (109, 1), (110, 1), (111, 1), (102, 2), (104, 2), (106, 2)] := rfl

/-- C6 counterexample: a second `connect()` while already connected does
return `true` again, but it performs another `client.connect()`
invocation on the transport rather than none. -/
theorem second_connect_invokes_transport :
    (AllSensorsReader.connect false (some true)).1 = true
    ∧ (AllSensorsReader.connect
        (AllSensorsReader.connect false (some true)).2.1 (some true)).1 = true
    ∧ (AllSensorsReader.connect
        (AllSensorsReader.connect false (some true)).2.1 (some true)).2.2 = 1
    ∧ ¬ (AllSensorsReader.connect
        (AllSensorsReader.connect false (some true)).2.1 (some true)).2.2 = 0 := by
  decide

/-- C6 amended: calling `connect()` twice while the transport keeps
reporting a successful connection returns `true` both times, but every
call — the current `connected` state notwithstanding — performs exactly
one `client.connect()` invocation on the transport. -/
theorem connect_always_invokes_transport (c : Bool) :
    AllSensorsReader.connect c (some true) = (true, true, 1) := rfl

/-- C8: for each data class independently, triggering an update while
that class's worker is still running is a no-op for the class: no new
worker is started (the trigger is dropped, not queued) and the slot is
unchanged, so no second read of that class begins until the running one
finishes. -/
theorem trigger_single_flight (st : AllSensorsApp.AppState) (connected : Bool) :
    (st.telemetry_worker = some true →
      (AllSensorsApp.trigger_data_update connected st).2.1 = false
      ∧ (AllSensorsApp.trigger_data_update connected st).1.telemetry_worker =
          st.telemetry_worker)
    ∧ (st.waveforms_worker = some true →
      (AllSensorsApp.trigger_data_update connected st).2.2 = false
      ∧ (AllSensorsApp.trigger_data_update connected st).1.waveforms_worker =
          st.waveforms_worker) := by
  cases connected with
  | false => exact ⟨fun _ => ⟨rfl, rfl⟩, fun _ => ⟨rfl, rfl⟩⟩
  | true =>
    constructor
    · intro h
      simp [AllSensorsApp.trigger_data_update, AllSensorsApp.triggerSlot, h]
    · intro h
      simp [AllSensorsApp.trigger_data_update, AllSensorsApp.triggerSlot, h]

/-- Witness for C8: with both workers running, a trigger starts neither
worker and leaves both slots untouched. -/
theorem trigger_single_flight_witness :
    (AllSensorsApp.trigger_data_update true ⟨some true, some true⟩).2.1 = false
    ∧ (AllSensorsApp.trigger_data_update true ⟨some true, some true⟩).1.telemetry_worker
        = some true
    ∧ (AllSensorsApp.trigger_data_update true ⟨some true, some true⟩).2.2 = false
    ∧ (AllSensorsApp.trigger_data_update true ⟨some true, some true⟩).1.waveforms_worker
        = some true :=
  ⟨((trigger_single_flight ⟨some true, some true⟩ true).1 rfl).1,
   ((trigger_single_flight ⟨some true, some true⟩ true).1 rfl).2,
   ((trigger_single_flight ⟨some true, some true⟩ true).2 rfl).1,
   ((trigger_single_flight ⟨some true, some true⟩ true).2 rfl).2⟩

/-- C10: `UHFMonitor.read_uhf_waveform` returns the empty list when not
connected and also when either chunk read fails or raises, so the caller
cannot tell not-connected from a mid-read failure by the return value;
`UHFMonitor.read_uhf_telemetry`, by contrast, returns `None` when not
connected. -/
theorem uhf_waveform_empty_conflates_failures (dev : Dev) :
    UHFMonitor.read_uhf_waveform false dev = []
    ∧ ((dev 2256 125 = ReadOutcome.err ∨ dev 2256 125 = ReadOutcome.exn) →
        UHFMonitor.read_uhf_waveform true dev = [])
    ∧ (∀ regs, dev 2256 125 = ReadOutcome.ok regs →
        (dev 2381 3 = ReadOutcome.err ∨ dev 2381 3 = ReadOutcome.exn) →
        UHFMonitor.read_uhf_waveform true dev = [])
    ∧ UHFMonitor.read_uhf_telemetry false dev = none := by
  refine ⟨rfl, ?_, ?_, rfl⟩
  · intro h
    cases h with
    | inl h => simp [UHFMonitor.read_uhf_waveform, readChannel_unfold_128_125, h]
    | inr h => simp [UHFMonitor.read_uhf_waveform, readChannel_unfold_128_125, h]
  · intro regs hok h
    have h2381 : dev (2256 + 125) 3 = dev 2381 3 := by norm_num
    cases h with
    | inl h =>
      simp [UHFMonitor.read_uhf_waveform, readChannel_unfold_128_125, hok, h2381, h]
    | inr h =>
      simp [UHFMonitor.read_uhf_waveform, readChannel_unfold_128_125, hok, h2381, h]

/-- Witness for C10: a device whose second chunk fails yields the same
empty list as a disconnected read, while the disconnected telemetry read
yields `None`. -/
theorem uhf_waveform_empty_conflates_failures_witness :
    UHFMonitor.read_uhf_waveform false (fun _ _ => ReadOutcome.ok []) = []
    ∧ UHFMonitor.read_uhf_waveform true
        (fun a _ => if a = 2256 then ReadOutcome.ok (List.replicate 125 0)
                    else ReadOutcome.err) = []
    ∧ UHFMonitor.read_uhf_telemetry false (fun _ _ => ReadOutcome.ok []) = none := by
  refine ⟨(uhf_waveform_empty_conflates_failures _).1, ?_,
    (uhf_waveform_empty_conflates_failures (fun _ _ => ReadOutcome.ok [])).2.2.2⟩
  exact (uhf_waveform_empty_conflates_failures _).2.2.1 (List.replicate 125 0)
    (by norm_num) (Or.inl (by norm_num))
